import Mathlib

/-!
Verification of the codechain-indexer UTXO/pagination subsystem.

The definitions below are a shallow embedding of the TypeScript sources:
  * `src/models/logic/utils/middleware.ts` (`parseEvaluatedKey`, `syncIfNeeded`)
  * `src/routers/asset.ts` (the `/utxo`, `/aggs-utxo` and `/snapshot` handlers)
  * `src/routers/block.ts` (the `/block/:hashOrNumber` handler)

JavaScript runtime behaviour that the routes rely on (truthiness, `parseInt`,
`JSON.parse`, `isNaN`/`Number` coercion) is modelled explicitly.  External
builtins whose internals are irrelevant to the routes (`JSON.parse`, `moment`
date parsing, the sync worker) are passed in as function/value parameters.

Query-engine functions that live in files not part of the provided sources
(`models/logic/utxo.ts`, `models/logic/block.ts`, `routers/pagination.ts`) are
modelled from the specification; each such definition carries a doc comment
starting with `Modelled from the spec:`.
-/

namespace CodechainIndexer

/-- A JSON value, as produced by `JSON.parse`. Objects are not needed by any
claim (evaluated keys are arrays of primitives); for JavaScript truthiness an
object behaves like an array (always truthy). -/
inductive Json where
  | null
  | bool (b : Bool)
  | num (n : Int)
  | str (s : String)
  | arr (elems : List Json)

/-- JavaScript truthiness of a JSON value: `null`, `false`, `0` and `""` are
falsy; every array (and object) is truthy. -/
def Json.truthy : Json → Bool
  | .null => false
  | .bool b => b
  | .num n => n != 0
  | .str s => !s.isEmpty
  | .arr _ => true

/-- A JavaScript value sitting in `req.query.firstEvaluatedKey` /
`req.query.lastEvaluatedKey`: initially `undefined` or a raw query string, and
after `parseEvaluatedKey` possibly a parsed JSON value. -/
inductive JsValue where
  | undefined
  | str (s : String)
  | json (j : Json)

/-- JavaScript truthiness of such a value (`undefined` and `""` are falsy). -/
def JsValue.truthy : JsValue → Bool
  | .undefined => false
  | .str s => !s.isEmpty
  | .json j => j.truthy

/-- Lift an optional raw query string to a `JsValue` (`none` = parameter absent,
i.e. `undefined`). -/
def JsValue.ofQuery : Option String → JsValue
  | none => .undefined
  | some s => .str s

/-- Errors raised by the `parseEvaluatedKey` middleware: `JSON.parse` throwing
on malformed input, or the explicit
`Error("Conflict lastEvaluatedKey and firstEvaluatedKey")`. -/
inductive MiddlewareError where
  | parseError
  | conflictError
deriving Repr, DecidableEq

/-- `middleware.ts` lines 28-36: `if (req.query.firstEvaluatedKey)
req.query.firstEvaluatedKey = JSON.parse(req.query.firstEvaluatedKey)`.
The guard is JavaScript truthiness of the current value; a failing
`JSON.parse` throws (modelled by `jsonParse` returning `none`). -/
def parseOneKey (jsonParse : String → Option Json) (v : JsValue) :
    Except MiddlewareError JsValue :=
  if v.truthy then
    match v with
    | .str s =>
      match jsonParse s with
      | some j => .ok (.json j)
      | none => .error .parseError
    | other => .ok other
  else
    .ok v

/-- `middleware.ts` lines 23-44, `parseEvaluatedKey`: parse
`firstEvaluatedKey`, then `lastEvaluatedKey`, then throw if both (post-parse)
values are truthy.  Any thrown error is handed to `next(e)`, which stops the
route chain before the request handler runs. -/
def parseEvaluatedKey (jsonParse : String → Option Json)
    (firstEvaluatedKey lastEvaluatedKey : JsValue) :
    Except MiddlewareError (JsValue × JsValue) := do
  let first ← parseOneKey jsonParse firstEvaluatedKey
  let last ← parseOneKey jsonParse lastEvaluatedKey
  if last.truthy && first.truthy then
    throw .conflictError
  return (first, last)

/-- Whether `needle` occurs as a contiguous sublist of `hay`. -/
def listContainsSub (needle : List Char) : List Char → Bool
  | [] => needle.isEmpty
  | c :: rest => needle.isPrefixOf (c :: rest) || listContainsSub needle rest

/-- `"ECONNRESET"`/`"ECONNREFUSED"` substring test:
`error.message.search(/ECONNRESET|ECONNREFUSED/) >= 0` in `middleware.ts`
line 12. -/
def containsSubstring (haystack needle : String) : Bool :=
  listContainsSub needle.toList haystack.toList

def isConnError (msg : String) : Bool :=
  containsSubstring msg "ECONNRESET" || containsSubstring msg "ECONNREFUSED"

/-- What the `syncIfNeeded` middleware did with a request: the HTTP status it
wrote directly (503 in the unavailable case), and the sequence of `next(...)`
calls it made (`none` = plain `next()`, `some msg` = `next(error)`).  The
downstream request handler (and hence the storage query) runs only if a plain
`next()` is reached with no prior error. -/
structure SyncMwResult where
  status : Option Nat
  nextCalls : List (Option String)
deriving Repr, DecidableEq

/-- `middleware.ts` lines 5-21, `syncIfNeeded`: when the request opted in
(`req.query.sync === true`), await `context.worker.sync()` once; if it throws
with a message containing `ECONNRESET`/`ECONNREFUSED`, respond
`SERVICE_UNAVAILABLE` (503) and return without calling `next`; on any other
error call `next(e)` and then fall through to the trailing `next()` (both
calls are recorded, mirroring the source). -/
def syncIfNeeded (syncRequested : Bool) (syncResult : Except String Unit) :
    SyncMwResult :=
  if syncRequested then
    match syncResult with
    | .ok _ => { status := none, nextCalls := [none] }
    | .error msg =>
      if isConnError msg then
        { status := some 503, nextCalls := [] }
      else
        { status := none, nextCalls := [some msg, none] }
  else
    { status := none, nextCalls := [none] }

/-! ## JavaScript numeric and hex-string primitives used by the routes -/

def isJsWhitespace (c : Char) : Bool :=
  c = ' ' || c = '\t' || c = '\n' || c = '\r'

def digitsToNat (ds : List Char) : Nat :=
  ds.foldl (fun a c => a * 10 + (c.toNat - 48)) 0

/-- JavaScript `parseInt(s, 10)`: skip leading whitespace, optional sign,
take the leading run of decimal digits, ignore trailing garbage; `none`
models the `NaN` result when no digit is found. -/
def jsParseInt (s : String) : Option Int :=
  let cs := s.toList.dropWhile isJsWhitespace
  let signAndRest : Int × List Char :=
    match cs with
    | '-' :: r => (-1, r)
    | '+' :: r => (1, r)
    | r => (1, r)
  let digits := signAndRest.2.takeWhile Char.isDigit
  if digits.isEmpty then none
  else some (signAndRest.1 * (digitsToNat digits : Int))

def isHexDigitChar (c : Char) : Bool :=
  c.isDigit || ('a' ≤ c && c ≤ 'f') || ('A' ≤ c && c ≤ 'F')

def isExponentOrEmpty : List Char → Bool
  | [] => true
  | c :: rest =>
    if c = 'e' || c = 'E' then
      let mantissa :=
        match rest with
        | '+' :: r => r
        | '-' :: r => r
        | r => r
      !mantissa.isEmpty && mantissa.all Char.isDigit
    else false

/-- A JavaScript decimal number literal body:
`digits [. digits] | . digits`, optionally followed by an exponent. -/
def isDecimalLiteral (cs : List Char) : Bool :=
  let intPart := cs.takeWhile Char.isDigit
  let rest := cs.dropWhile Char.isDigit
  match rest with
  | [] => !intPart.isEmpty
  | '.' :: rest2 =>
    let frac := rest2.takeWhile Char.isDigit
    let rest3 := rest2.dropWhile Char.isDigit
    (!intPart.isEmpty || !frac.isEmpty) && isExponentOrEmpty rest3
  | _ => !intPart.isEmpty && isExponentOrEmpty rest

/-- Whether JavaScript `Number(s)` yields a non-`NaN` value, i.e. `isNaN(s)`
is `false` for the string `s` (used by `block.ts` line 68).  Over-approximates
slightly (a signed `0x...` literal is accepted here but is `NaN` in JS), which
only shrinks the set of inputs our theorems speak about. -/
def isNumericString (s : String) : Bool :=
  let cs := ((s.toList.dropWhile isJsWhitespace).reverse.dropWhile
    isJsWhitespace).reverse
  match cs with
  | [] => true
  | _ =>
    let body :=
      match cs with
      | '+' :: r => r
      | '-' :: r => r
      | r => r
    decide (body = "Infinity".toList) ||
    (match body with
     | '0' :: 'x' :: r => !r.isEmpty && r.all isHexDigitChar
     | '0' :: 'X' :: r => !r.isEmpty && r.all isHexDigitChar
     | '0' :: 'o' :: r => !r.isEmpty && r.all (fun c => '0' ≤ c && c ≤ '7')
     | '0' :: 'O' :: r => !r.isEmpty && r.all (fun c => '0' ≤ c && c ≤ '7')
     | '0' :: 'b' :: r => !r.isEmpty && r.all (fun c => c = '0' || c = '1')
     | '0' :: 'B' :: r => !r.isEmpty && r.all (fun c => c = '0' || c = '1')
     | _ => isDecimalLiteral body)

/-- The `codechain-primitives` fixed-length hash check
`/^(0x)?[0-9a-fA-F]{n}$/` underlying the `H160`/`H256` constructors (which
throw when it fails). -/
def isHexOfLength (n : Nat) (s : String) : Bool :=
  let body :=
    match s.toList with
    | '0' :: 'x' :: r => r
    | r => r
  body.length = n && body.all isHexDigitChar

def isH256 (s : String) : Bool := isHexOfLength 64 s

def isH160 (s : String) : Bool := isHexOfLength 40 s

/-! ## The `/utxo` and `/aggs-utxo` route handlers (`routers/asset.ts`) -/

/-- The result of a JavaScript `x && parseInt(x, 10)` expression on an
optional query string: `none` when the parameter is absent or empty (falsy,
treated as unsupplied downstream), otherwise the `parseInt` result. -/
inductive JsNum where
  | nan
  | int (n : Int)
deriving Repr, DecidableEq

def jsAndParseInt : Option String → Option JsNum
  | none => none
  | some s =>
    if s.isEmpty then none
    else
      match jsParseInt s with
      | none => some .nan
      | some n => some (.int n)

/-- `asset.ts` lines 143-146 and 353-356:
`(req.query.itemsPerPage && parseInt(req.query.itemsPerPage, 10)) || 15`.
An absent or empty parameter, a `NaN` parse, and a parsed `0` are all falsy
and fall through to the default `15`. -/
def effectiveItemsPerPage : Option String → Int
  | none => 15
  | some s =>
    if s.isEmpty then 15
    else
      match jsParseInt s with
      | none => 15
      | some n => if n = 0 then 15 else n

/-- Raw (string-level) query parameters of the `/utxo` and `/aggs-utxo`
routes, as seen before the `parseEvaluatedKey` middleware runs. -/
structure RawPagedQuery where
  address : Option String := none
  assetType : Option String := none
  shardId : Option String := none
  itemsPerPage : Option String := none
  onlyConfirmed : Option Bool := none
  confirmThreshold : Option String := none
  firstEvaluatedKey : Option String := none
  lastEvaluatedKey : Option String := none

/-- The argument record of the `UTXOModel.getUTXO` call
(`asset.ts` lines 159-168). -/
structure GetUTXOArgs where
  address : Option String
  assetType : Option String
  shardId : Option JsNum
  itemsPerPage : Int
  firstEvaluatedKey : JsValue
  lastEvaluatedKey : JsValue
  onlyConfirmed : Option Bool
  confirmThreshold : Option JsNum

/-- The grouping order of the aggregate query (`asset.ts` line 364). -/
inductive AggOrder where
  | assetType
  | address
deriving Repr, DecidableEq

/-- The argument record of the `UTXOModel.getAggsUTXO` call
(`asset.ts` lines 375-385). -/
structure GetAggsUTXOArgs where
  order : AggOrder
  address : Option String
  assetType : Option String
  shardId : Option JsNum
  itemsPerPage : Int
  firstEvaluatedKey : JsValue
  lastEvaluatedKey : JsValue
  onlyConfirmed : Option Bool
  confirmThreshold : Option JsNum

/-- Outcome of a route up to (and excluding) the storage layer: either the
handler reached the query-engine call with these arguments, or the request
terminated earlier with an error. -/
inductive RouteResult (α : Type) where
  | engineCall (args : α)
  | middlewareError (e : MiddlewareError)
  | invalidAssetType

/-- `asset.ts` lines 154-158: `if (assetTypeString) assetType = new
H160(assetTypeString)`.  An absent or empty string is falsy and leaves
`assetType` undefined; a malformed value makes the constructor throw, which
the handler forwards via `next(e)`. -/
def parseAssetType : Option String → Except Unit (Option String)
  | none => .ok none
  | some s =>
    if s.isEmpty then .ok none
    else if isH160 s then .ok (some s)
    else .error ()

/-- `asset.ts` lines 363-369: `if (address) order = "assetType"; else
order = "address"` (JavaScript truthiness on the raw query string). -/
def selectAggsOrder : Option String → AggOrder
  | none => .address
  | some s => if s.isEmpty then .address else .assetType

/-- The `/utxo` route (`asset.ts` lines 127-186): `parseEvaluatedKey`
middleware first, then the handler, which defaults `itemsPerPage`, validates
`assetType` and calls `UTXOModel.getUTXO` with `itemsPerPage + 1`.
The external validation schemas and the optional sync pre-step sit between
middleware and handler and are modelled elsewhere (`syncIfNeeded`). -/
def routeUTXO (jsonParse : String → Option Json) (q : RawPagedQuery) :
    RouteResult GetUTXOArgs :=
  match parseEvaluatedKey jsonParse (JsValue.ofQuery q.firstEvaluatedKey)
      (JsValue.ofQuery q.lastEvaluatedKey) with
  | .error e => .middlewareError e
  | .ok (first, last) =>
    match parseAssetType q.assetType with
    | .error _ => .invalidAssetType
    | .ok assetTy =>
      .engineCall {
        address := q.address
        assetType := assetTy
        shardId := jsAndParseInt q.shardId
        itemsPerPage := effectiveItemsPerPage q.itemsPerPage + 1
        firstEvaluatedKey := first
        lastEvaluatedKey := last
        onlyConfirmed := q.onlyConfirmed
        confirmThreshold := jsAndParseInt q.confirmThreshold }

/-- The `/aggs-utxo` route (`asset.ts` lines 337-404): same pipeline as
`/utxo`, plus the grouping-order selection of lines 363-369, calling
`UTXOModel.getAggsUTXO`. -/
def routeAggsUTXO (jsonParse : String → Option Json) (q : RawPagedQuery) :
    RouteResult GetAggsUTXOArgs :=
  match parseEvaluatedKey jsonParse (JsValue.ofQuery q.firstEvaluatedKey)
      (JsValue.ofQuery q.lastEvaluatedKey) with
  | .error e => .middlewareError e
  | .ok (first, last) =>
    match parseAssetType q.assetType with
    | .error _ => .invalidAssetType
    | .ok assetTy =>
      .engineCall {
        order := selectAggsOrder q.address
        address := q.address
        assetType := assetTy
        shardId := jsAndParseInt q.shardId
        itemsPerPage := effectiveItemsPerPage q.itemsPerPage + 1
        firstEvaluatedKey := first
        lastEvaluatedKey := last
        onlyConfirmed := q.onlyConfirmed
        confirmThreshold := jsAndParseInt q.confirmThreshold }

/-! ## The `/snapshot` route -/

/-- The Block data model (`models/block.ts`): only the fields the snapshot
route reads (`hash`, `number`, `timestamp`). -/
structure Block where
  hash : String
  number : Int
  timestamp : Int
deriving Repr, DecidableEq

/-- Modelled from the spec: `BlockModel.getByTime` lives in
`models/logic/block.ts`, which is not among the provided sources.  Spec §4.5
step 1 / §6 `resolveBlockByTimestamp`: resolve a timestamp to the latest
block with `timestamp <= t`, or `none` when no such block exists. -/
def getByTime (blocks : List Block) (t : Int) : Option Block :=
  match blocks.filter (fun b => b.timestamp ≤ t) with
  | [] => none
  | b :: bs =>
    some (bs.foldl (fun best c => if best.number ≤ c.number then c else best) b)

/-- Raw query parameters of the `/snapshot` route (`assetType` and `date` are
required by its schema). -/
structure RawSnapshotQuery where
  assetType : String
  date : String
  firstEvaluatedKey : Option String := none
  lastEvaluatedKey : Option String := none

/-- The argument record of the `UTXOModel.getSnapshot` call
(`asset.ts` lines 559-563). -/
structure GetSnapshotArgs where
  assetType : String
  blockNumber : Int
  lastEvaluatedKey : JsValue

/-- Outcome of the `/snapshot` route up to the UTXO query engine. -/
inductive SnapshotResult where
  | engineCall (blockHash : String) (args : GetSnapshotArgs)
  | jsonNull
  | middlewareError (e : MiddlewareError)
  | invalidAssetType
  | invalidDate

/-- The `/snapshot` route (`asset.ts` lines 531-573): `parseEvaluatedKey`
middleware, then the handler, which constructs the `H160` (throwing on a
malformed asset type), checks `moment(date).isValid()` (throwing
`InvalidDateParam` otherwise; `dateParse` models `moment` + `.utc().unix()`),
resolves the block via `BlockModel.getByTime`, answers `null` when no block
exists, and otherwise calls `UTXOModel.getSnapshot`. -/
def routeSnapshot (jsonParse : String → Option Json)
    (dateParse : String → Option Int) (blocks : List Block)
    (q : RawSnapshotQuery) : SnapshotResult :=
  match parseEvaluatedKey jsonParse (JsValue.ofQuery q.firstEvaluatedKey)
      (JsValue.ofQuery q.lastEvaluatedKey) with
  | .error e => .middlewareError e
  | .ok (_, last) =>
    if isH160 q.assetType then
      match dateParse q.date with
      | none => .invalidDate
      | some t =>
        match getByTime blocks t with
        | none => .jsonNull
        | some block =>
          .engineCall block.hash {
            assetType := q.assetType
            blockNumber := block.number
            lastEvaluatedKey := last }
    else .invalidAssetType

/-! ## The `/block/:hashOrNumber` route (`routers/block.ts`) -/

/-- What the `/block/:hashOrNumber` handler decided to do: look a block up by
hash, look it up by number, or respond `null` immediately with no lookup.
The handler has no failure outcome before the lookup: the `H256` constructor
throw is caught by the surrounding `try`. -/
inductive BlockLookup where
  | jsonNull
  | byHash (h : String)
  | byNumber (n : JsNum)
deriving Repr, DecidableEq

/-- `block.ts` lines 61-85: try `new H256(hashOrNumber)`; on throw, set
`numberValue = parseInt(hashOrNumber, 10)` only when `!isNaN(hashOrNumber)`;
then dispatch to `getByHash` / `getByNumber`, or — when neither value was
produced — respond `res.json(null)` without any lookup. -/
def blockByIdentifier (hashOrNumber : String) : BlockLookup :=
  if isH256 hashOrNumber then .byHash hashOrNumber
  else if isNumericString hashOrNumber then
    .byNumber
      (match jsParseInt hashOrNumber with
       | none => .nan
       | some n => .int n)
  else .jsonNull

/-! ## The UTXO query engine and cursor codec

`models/logic/utxo.ts` (exporting `getUTXO`, `getAggsUTXO`, `getSnapshot`,
`createUTXOEvaluatedKey`, `createAggsUTXOEvaluatedKey`) is not among the
provided sources; the definitions in this section are modelled from the
specification (§3, §4.1-§4.4). -/

/-- An UnspentOutput row (spec §3): owning address, asset type, shard id,
amount, owning action id, output index, block number of creation. -/
structure UTXORow where
  address : String
  assetType : String
  shardId : Int
  amount : Nat
  actionId : Int
  outputIndex : Int
  blockNumber : Int
deriving Repr, DecidableEq

/-- Modelled from the spec: the Confirmation Filter (§4.2) inside
`UTXOModel.getUTXO` — eligible ceiling is `H - confirmThreshold` when
`onlyConfirmed` is true, else no ceiling. -/
def confirmationCeiling (onlyConfirmed : Bool)
    (headHeight confirmThreshold : Int) : Option Int :=
  if onlyConfirmed then some (headHeight - confirmThreshold) else none

def withinCeiling (ceiling : Option Int) (blockNumber : Int) : Bool :=
  match ceiling with
  | none => true
  | some c => blockNumber ≤ c

/-- An absent filter is not applied; a present one is an equality
predicate (spec §4.3). -/
def matchesFilter (filter? : Option String) (x : String) : Bool :=
  match filter? with
  | none => true
  | some s => x == s

def matchesShard (filter? : Option Int) (x : Int) : Bool :=
  match filter? with
  | none => true
  | some s => x == s

/-- Modelled from the spec: the eligibility predicate of
`UTXOModel.getUTXO` (§4.3) — ANDed optional filters plus the confirmation
ceiling of §4.2 at head height `headHeight`. -/
def getUTXOModel (store : List UTXORow) (address assetType : Option String)
    (shardId : Option Int) (onlyConfirmed : Bool)
    (confirmThreshold headHeight : Int) : List UTXORow :=
  store.filter (fun r =>
    matchesFilter address r.address &&
    matchesFilter assetType r.assetType &&
    matchesShard shardId r.shardId &&
    withinCeiling (confirmationCeiling onlyConfirmed headHeight confirmThreshold)
      r.blockNumber)

/-- The sort key of a UTXO listing row (spec §3):
`(createdBlockNumber, actionId, outputIndex)`. -/
structure UTXOSortKey where
  blockNumber : Int
  actionId : Int
  outputIndex : Int
deriving Repr, DecidableEq

def utxoSortKey (r : UTXORow) : UTXOSortKey :=
  ⟨r.blockNumber, r.actionId, r.outputIndex⟩

/-- Modelled from the spec: `UTXOModel.createUTXOEvaluatedKey` (§4.1) —
serialize the sort-key tuple of a row as an ordered JSON sequence of
primitive values. -/
def createUTXOEvaluatedKey (r : UTXORow) : Json :=
  .arr [.num r.blockNumber, .num r.actionId, .num r.outputIndex]

/-- Modelled from the spec: the query-side decode of a UTXO evaluated key
(§4.1) — fails (`MalformedCursor`, here `none`) unless the cursor is valid
serialized structure of the right arity for the query shape: an array of
exactly three numbers. -/
def decodeUTXOEvaluatedKey : Json → Option UTXOSortKey
  | .arr [.num a, .num b, .num c] => some ⟨a, b, c⟩
  | _ => none

/-- An aggregate-UTXO result row (spec §4.4): one row per distinct group. -/
structure AggsUTXORow where
  address : String
  assetType : String
  totalAmount : Nat
  utxoCount : Nat
deriving Repr, DecidableEq

/-- The sort key of an aggregate row (spec §3): `(assetType, address)` for
assetType-grouped results, `(address, assetType)` for address-grouped. -/
def aggsSortKey (r : AggsUTXORow) : AggOrder → String × String
  | .assetType => (r.assetType, r.address)
  | .address => (r.address, r.assetType)

/-- Modelled from the spec: `UTXOModel.createAggsUTXOEvaluatedKey` (§4.1) —
serialize the grouped sort key for the given order. -/
def createAggsUTXOEvaluatedKey (r : AggsUTXORow) (order : AggOrder) : Json :=
  match order with
  | .assetType => .arr [.str r.assetType, .str r.address]
  | .address => .arr [.str r.address, .str r.assetType]

/-- Modelled from the spec: decode of an aggregate evaluated key (§4.1) —
fails unless the cursor is an array of exactly two strings. -/
def decodeAggsUTXOEvaluatedKey : Json → Option (String × String)
  | .arr [.str a, .str b] => some (a, b)
  | _ => none

/-! ## Concrete instances used by witnesses and counterexamples -/

/-- A concrete stand-in for the external `JSON.parse` builtin, agreeing with
it on the inputs used below: `"0"` parses to the number `0` (a falsy value)
and `"[1]"` to the one-element array `[1]` (truthy). -/
def demoJsonParse : String → Option Json
  | "0" => some (.num 0)
  | "[1]" => some (.arr [.num 1])
  | _ => none

/-- A concrete stand-in for `moment(date).utc().unix()`: one fixed valid
date string mapping to Unix time 100; everything else is invalid. -/
def demoDateParse : String → Option Int
  | "2019-01-01T00:01:40Z" => some 100
  | _ => none

/-- A well-formed 40-hex-digit asset type. -/
def demoAssetType : String := "0123456789abcdef0123456789abcdef01234567"

/-- The request of the C1 counterexample: both evaluated keys supplied, the
first being the JSON text `"0"`, which parses to the falsy number `0`. -/
def c1Query : RawPagedQuery :=
  { firstEvaluatedKey := some "0"
    lastEvaluatedKey := some "[1]" }

/-- The `getUTXO` argument record that `/utxo` produces for `c1Query`. -/
def c1EngineArgs : GetUTXOArgs :=
  { address := none
    assetType := none
    shardId := none
    itemsPerPage := 16
    firstEvaluatedKey := .json (.num 0)
    lastEvaluatedKey := .json (.arr [.num 1])
    onlyConfirmed := none
    confirmThreshold := none }

/-- The `getAggsUTXO` argument record that `/aggs-utxo` produces for a
request whose only parameter is `address=alice`. -/
def c2EngineArgs : GetAggsUTXOArgs :=
  { order := .assetType
    address := some "alice"
    assetType := none
    shardId := none
    itemsPerPage := 16
    firstEvaluatedKey := .undefined
    lastEvaluatedKey := .undefined
    onlyConfirmed := none
    confirmThreshold := none }

/-- The `getAggsUTXO` argument record that `/aggs-utxo` produces for a
request supplying the present-but-empty `address=` (a falsy string, hence
not an address filter): the grouping order falls back to `address`. -/
def c2EmptyAddressArgs : GetAggsUTXOArgs :=
  { order := .address
    address := some ""
    assetType := none
    shardId := none
    itemsPerPage := 16
    firstEvaluatedKey := .undefined
    lastEvaluatedKey := .undefined
    onlyConfirmed := none
    confirmThreshold := none }

/-- The `getUTXO` argument record that `/utxo` produces for a request whose
only parameter is `itemsPerPage=10`. -/
def c3EngineArgs : GetUTXOArgs :=
  { address := none
    assetType := none
    shardId := none
    itemsPerPage := 11
    firstEvaluatedKey := .undefined
    lastEvaluatedKey := .undefined
    onlyConfirmed := none
    confirmThreshold := none }

/-- A one-block chain whose single block (number 1) has timestamp 200,
i.e. after the demo snapshot time 100. -/
def c4Blocks : List Block := [{ hash := "hash1", number := 1, timestamp := 200 }]

/-- A UTXO row at the given block number, with all other fields fixed. -/
def utxoAtBlock (n : Int) : UTXORow :=
  { address := "addr"
    assetType := "ty"
    shardId := 0
    amount := 1
    actionId := 0
    outputIndex := 0
    blockNumber := n }

/-- The request of the C10 counterexample: `itemsPerPage=-3`. -/
def c10Query : RawPagedQuery := { itemsPerPage := some "-3" }

/-- The `getUTXO` argument record that `/utxo` produces for `c10Query`:
the negative page size is honored, so the over-fetch limit is `-2`. -/
def c10EngineArgs : GetUTXOArgs :=
  { address := none
    assetType := none
    shardId := none
    itemsPerPage := -2
    firstEvaluatedKey := .undefined
    lastEvaluatedKey := .undefined
    onlyConfirmed := none
    confirmThreshold := none }

/-! ## Helper lemmas -/

theorem parseEvaluatedKey_conflict (jp : String → Option Json) (fs ls : String)
    (jf jl : Json) (hfp : jp fs = some jf) (hlp : jp ls = some jl)
    (hft : jf.truthy = true) (hlt : jl.truthy = true)
    (hfne : fs ≠ "") (hlne : ls ≠ "") :
    parseEvaluatedKey jp (.str fs) (.str ls) = .error .conflictError := by
  have hfe : fs.isEmpty = false := by
    rw [Bool.eq_false_iff]
    intro h
    exact hfne ((String.isEmpty_iff fs).mp h)
  have hle : ls.isEmpty = false := by
    rw [Bool.eq_false_iff]
    intro h
    exact hlne ((String.isEmpty_iff ls).mp h)
  simp [parseEvaluatedKey, parseOneKey, JsValue.truthy, hfe, hle, hfp, hlp,
    hft, hlt, bind, Except.bind, throw, throwThe, MonadExceptOf.throw,
    Functor.map, Except.map]

theorem routeUTXO_engine_args (jp : String → Option Json) (q : RawPagedQuery)
    (args : GetUTXOArgs) (h : routeUTXO jp q = .engineCall args) :
    args.itemsPerPage = effectiveItemsPerPage q.itemsPerPage + 1 ∧
    args.onlyConfirmed = q.onlyConfirmed ∧
    args.confirmThreshold = jsAndParseInt q.confirmThreshold ∧
    args.address = q.address := by
  unfold routeUTXO at h
  split at h
  · exact absurd h (by intro hc; cases hc)
  · split at h
    · exact absurd h (by intro hc; cases hc)
    · cases h
      exact ⟨rfl, rfl, rfl, rfl⟩

theorem routeAggsUTXO_engine_args (jp : String → Option Json)
    (q : RawPagedQuery) (args : GetAggsUTXOArgs)
    (h : routeAggsUTXO jp q = .engineCall args) :
    args.order = selectAggsOrder q.address ∧
    args.itemsPerPage = effectiveItemsPerPage q.itemsPerPage + 1 := by
  unfold routeAggsUTXO at h
  split at h
  · exact absurd h (by intro hc; cases hc)
  · split at h
    · exact absurd h (by intro hc; cases hc)
    · cases h
      exact ⟨rfl, rfl⟩

theorem getByTime_eq_none_iff (blocks : List Block) (t : Int) :
    getByTime blocks t = none ↔ ∀ b ∈ blocks, ¬(b.timestamp ≤ t) := by
  unfold getByTime
  constructor
  · intro h b hb hts
    have hmem : b ∈ blocks.filter (fun b => b.timestamp ≤ t) :=
      List.mem_filter.mpr ⟨hb, by simpa using hts⟩
    cases hfl : blocks.filter (fun b => b.timestamp ≤ t) with
    | nil => rw [hfl] at hmem; cases hmem
    | cons x xs => rw [hfl] at h; cases h
  · intro h
    have : blocks.filter (fun b => b.timestamp ≤ t) = [] := by
      rw [List.filter_eq_nil_iff]
      intro b hb
      simpa using h b hb
    rw [this]

/-! ## Claim C1 -/

/-- C1, counterexample: a `/utxo` request supplying BOTH `firstEvaluatedKey`
(`"0"`, which `JSON.parse` turns into the falsy number `0`) and
`lastEvaluatedKey` (`"[1]"`) is NOT rejected: the conflict check of
`parseEvaluatedKey` tests JavaScript truthiness of the parsed values, so the
request reaches the query engine with both keys forwarded. -/
theorem c1_conflicting_cursor_counterexample :
    routeUTXO demoJsonParse c1Query = .engineCall c1EngineArgs := rfl

/-- C1, amended: a paginated request (`/utxo`, `/aggs-utxo` or `/snapshot`)
supplying both `firstEvaluatedKey` and `lastEvaluatedKey` such that both
values parse to truthy JSON values (every well-formed cursor, being a
non-empty array, is truthy) fails with the conflict error of
`parseEvaluatedKey` before the query engine is invoked. -/
theorem c1_conflicting_cursor_amended (jp : String → Option Json)
    (fs ls : String) (jf jl : Json)
    (hfp : jp fs = some jf) (hlp : jp ls = some jl)
    (hft : jf.truthy = true) (hlt : jl.truthy = true)
    (hfne : fs ≠ "") (hlne : ls ≠ "") :
    (∀ q : RawPagedQuery, q.firstEvaluatedKey = some fs →
      q.lastEvaluatedKey = some ls →
      routeUTXO jp q = .middlewareError .conflictError ∧
      routeAggsUTXO jp q = .middlewareError .conflictError) ∧
    (∀ (dateParse : String → Option Int) (blocks : List Block)
      (q : RawSnapshotQuery), q.firstEvaluatedKey = some fs →
      q.lastEvaluatedKey = some ls →
      routeSnapshot jp dateParse blocks q = .middlewareError .conflictError) := by
  have hconf := parseEvaluatedKey_conflict jp fs ls jf jl hfp hlp hft hlt
    hfne hlne
  constructor
  · intro q hqf hql
    constructor
    · unfold routeUTXO
      rw [hqf, hql]
      simp [JsValue.ofQuery, hconf]
    · unfold routeAggsUTXO
      rw [hqf, hql]
      simp [JsValue.ofQuery, hconf]
  · intro dateParse blocks q hqf hql
    unfold routeSnapshot
    rw [hqf, hql]
    simp [JsValue.ofQuery, hconf]

/-- C1, witness: the amended theorem applied at a concrete request carrying
the truthy cursor `"[1]"` in both positions. -/
theorem c1_conflicting_cursor_witness :
    routeUTXO demoJsonParse
      { firstEvaluatedKey := some "[1]", lastEvaluatedKey := some "[1]" } =
      .middlewareError .conflictError :=
  ((c1_conflicting_cursor_amended demoJsonParse "[1]" "[1]"
    (.arr [.num 1]) (.arr [.num 1]) rfl rfl rfl rfl
    (by decide) (by decide)).1
    { firstEvaluatedKey := some "[1]", lastEvaluatedKey := some "[1]" }
    rfl rfl).1

/-! ## Claim C2 -/

/-- C2: for every aggregate-UTXO request that reaches the query engine, the
grouping order is `assetType` when an address filter is supplied (a
non-empty string), and `address` in every other case — the address parameter
being absent OR present but empty (a falsy string is not an address filter);
together the two parts cover every possible `q.address`.  Moreover no input
other than the address parameter influences the choice. -/
theorem c2_aggs_order_selection :
    (∀ (jp : String → Option Json) (q : RawPagedQuery)
      (args : GetAggsUTXOArgs) (s : String), q.address = some s → s ≠ "" →
      routeAggsUTXO jp q = .engineCall args → args.order = .assetType) ∧
    (∀ (jp : String → Option Json) (q : RawPagedQuery)
      (args : GetAggsUTXOArgs), q.address = none ∨ q.address = some "" →
      routeAggsUTXO jp q = .engineCall args → args.order = .address) ∧
    (∀ (jp jp' : String → Option Json) (q q' : RawPagedQuery)
      (args args' : GetAggsUTXOArgs), q.address = q'.address →
      routeAggsUTXO jp q = .engineCall args →
      routeAggsUTXO jp' q' = .engineCall args' →
      args.order = args'.order) := by
  refine ⟨?_, ?_, ?_⟩
  · intro jp q args s hq hs h
    have hse : s.isEmpty = false := by
      rw [Bool.eq_false_iff]
      intro he
      exact hs ((String.isEmpty_iff s).mp he)
    rw [(routeAggsUTXO_engine_args jp q args h).1, hq]
    simp [selectAggsOrder, hse]
  · intro jp q args hq h
    rcases hq with hq | hq
    · rw [(routeAggsUTXO_engine_args jp q args h).1, hq]
      rfl
    · rw [(routeAggsUTXO_engine_args jp q args h).1, hq]
      rfl
  · intro jp jp' q q' args args' hqq h h'
    rw [(routeAggsUTXO_engine_args jp q args h).1,
      (routeAggsUTXO_engine_args jp' q' args' h').1, hqq]

/-- C2, witness: the order-selection theorem applied to two concrete
requests — `address=alice` (engine call with order `assetType`) and the
present-but-empty `address=` (engine call with order `address`). -/
theorem c2_aggs_order_witness :
    c2EngineArgs.order = .assetType ∧ c2EmptyAddressArgs.order = .address :=
  ⟨c2_aggs_order_selection.1 demoJsonParse { address := some "alice" }
    c2EngineArgs "alice" rfl (by decide) rfl,
   c2_aggs_order_selection.2.1 demoJsonParse { address := some "" }
    c2EmptyAddressArgs (Or.inr rfl) rfl⟩

/-! ## Claim C3 -/

/-- C3: every `/utxo` and `/aggs-utxo` request that reaches the query engine
passes limit `itemsPerPage + 1`, where `itemsPerPage` is the (defaulted)
page size computed from the request. -/
theorem c3_overfetch_plus_one :
    (∀ (jp : String → Option Json) (q : RawPagedQuery) (args : GetUTXOArgs),
      routeUTXO jp q = .engineCall args →
      args.itemsPerPage = effectiveItemsPerPage q.itemsPerPage + 1) ∧
    (∀ (jp : String → Option Json) (q : RawPagedQuery)
      (args : GetAggsUTXOArgs), routeAggsUTXO jp q = .engineCall args →
      args.itemsPerPage = effectiveItemsPerPage q.itemsPerPage + 1) :=
  ⟨fun jp q args h => (routeUTXO_engine_args jp q args h).1,
   fun jp q args h => (routeAggsUTXO_engine_args jp q args h).2⟩

/-- C3, witness: the over-fetch theorem applied to the concrete request
`itemsPerPage=10`, whose engine call carries limit `11`. -/
theorem c3_overfetch_witness :
    c3EngineArgs.itemsPerPage = effectiveItemsPerPage (some "10") + 1 :=
  c3_overfetch_plus_one.1 demoJsonParse { itemsPerPage := some "10" }
    c3EngineArgs rfl

/-! ## Claim C4 -/

/-- C4: a snapshot request (well-formed asset type, valid date, middleware
succeeding) for a time `t` such that no block has `timestamp ≤ t` responds
with the explicit `null` — not an error and not an empty page — and the UTXO
query engine is never invoked (the outcome is `jsonNull`, not
`engineCall`). -/
theorem c4_snapshot_no_block_null (jp : String → Option Json)
    (dateParse : String → Option Int) (blocks : List Block)
    (q : RawSnapshotQuery) (t : Int) (keys : JsValue × JsValue)
    (hmw : parseEvaluatedKey jp (JsValue.ofQuery q.firstEvaluatedKey)
      (JsValue.ofQuery q.lastEvaluatedKey) = .ok keys)
    (hat : isH160 q.assetType = true)
    (hd : dateParse q.date = some t)
    (hno : ∀ b ∈ blocks, ¬(b.timestamp ≤ t)) :
    routeSnapshot jp dateParse blocks q = .jsonNull := by
  obtain ⟨f, l⟩ := keys
  unfold routeSnapshot
  rw [hmw]
  simp [hat, hd, (getByTime_eq_none_iff blocks t).mpr hno]

/-- C4, witness: a concrete snapshot request at time 100 against a chain
whose only block has timestamp 200. -/
theorem c4_snapshot_no_block_witness :
    routeSnapshot demoJsonParse demoDateParse c4Blocks
      { assetType := demoAssetType, date := "2019-01-01T00:01:40Z" } =
      .jsonNull :=
  c4_snapshot_no_block_null demoJsonParse demoDateParse c4Blocks
    { assetType := demoAssetType, date := "2019-01-01T00:01:40Z" }
    100 (.undefined, .undefined) rfl (by decide) rfl (by decide)

/-! ## Claim C5 -/

/-- C5: a snapshot request (well-formed asset type, middleware succeeding)
whose date does not parse as a valid date/time fails with the `InvalidDate`
client error; the block store is never consulted (the outcome does not
depend on `blocks`) and the query engine is never invoked. -/
theorem c5_snapshot_invalid_date (jp : String → Option Json)
    (dateParse : String → Option Int) (blocks : List Block)
    (q : RawSnapshotQuery) (keys : JsValue × JsValue)
    (hmw : parseEvaluatedKey jp (JsValue.ofQuery q.firstEvaluatedKey)
      (JsValue.ofQuery q.lastEvaluatedKey) = .ok keys)
    (hat : isH160 q.assetType = true)
    (hd : dateParse q.date = none) :
    routeSnapshot jp dateParse blocks q = .invalidDate := by
  obtain ⟨f, l⟩ := keys
  unfold routeSnapshot
  rw [hmw]
  simp [hat, hd]

/-- C5, witness: a concrete snapshot request whose date string is not a
valid date. -/
theorem c5_snapshot_invalid_date_witness :
    routeSnapshot demoJsonParse demoDateParse c4Blocks
      { assetType := demoAssetType, date := "not-a-date" } = .invalidDate :=
  c5_snapshot_invalid_date demoJsonParse demoDateParse c4Blocks
    { assetType := demoAssetType, date := "not-a-date" }
    (.undefined, .undefined) rfl (by decide) rfl

/-! ## Claim C6 -/

/-- C6: a request that opted into the sync pre-step whose sync dependency is
unreachable (the worker throws with `ECONNRESET`/`ECONNREFUSED` in the
message) is answered immediately with the distinct 503 Service Unavailable
status, and no `next(...)` call is made — the downstream handler, and hence
the storage query, never runs; the single consumed sync result embodies the
absence of any internal retry. -/
theorem c6_sync_unavailable_503 (msg : String)
    (h : isConnError msg = true) :
    syncIfNeeded true (.error msg) = { status := some 503, nextCalls := [] } := by
  simp [syncIfNeeded, h]

/-- C6, witness: the theorem applied to a concrete `ECONNREFUSED` error
message. -/
theorem c6_sync_unavailable_witness :
    syncIfNeeded true (.error "connect ECONNREFUSED 127.0.0.1:8080") =
      { status := some 503, nextCalls := [] } :=
  c6_sync_unavailable_503 "connect ECONNREFUSED 127.0.0.1:8080" (by decide)

/-! ## Claim C7 -/

/-- C7: in the spec-modelled query engine, with `onlyConfirmed = true` a row
is included iff (besides the ANDed filters) its creation block number is at
most `H - confirmThreshold`; with `onlyConfirmed = false` there is no
ceiling.  Concretely, with head height 100 and threshold 10, an output at
block 91 is excluded and one at block 90 is included. -/
theorem c7_confirmation_ceiling :
    (∀ (store : List UTXORow) (address assetType : Option String)
      (shardId : Option Int) (confirmThreshold headHeight : Int) (r : UTXORow),
      (r ∈ getUTXOModel store address assetType shardId true
          confirmThreshold headHeight ↔
        r ∈ store ∧ matchesFilter address r.address = true ∧
        matchesFilter assetType r.assetType = true ∧
        matchesShard shardId r.shardId = true ∧
        r.blockNumber ≤ headHeight - confirmThreshold) ∧
      (r ∈ getUTXOModel store address assetType shardId false
          confirmThreshold headHeight ↔
        r ∈ store ∧ matchesFilter address r.address = true ∧
        matchesFilter assetType r.assetType = true ∧
        matchesShard shardId r.shardId = true)) ∧
    (utxoAtBlock 91 ∉
      getUTXOModel [utxoAtBlock 91, utxoAtBlock 90] none none none true 10 100 ∧
     utxoAtBlock 90 ∈
      getUTXOModel [utxoAtBlock 91, utxoAtBlock 90] none none none true 10 100) := by
  constructor
  · intro store address assetType shardId thr H r
    constructor
    · simp [getUTXOModel, List.mem_filter, withinCeiling, confirmationCeiling,
        and_assoc]
    · simp [getUTXOModel, List.mem_filter, withinCeiling, confirmationCeiling,
        and_assoc]
  · exact ⟨by decide, by decide⟩

/-! ## Claim C8 -/

/-- C8: the cursor codec round-trips — decoding the evaluated key encoded
from any row yields exactly that row's sort key, for both the flat UTXO
shape and both aggregate orders — and decoding fails (`none`, i.e.
`MalformedCursor`) on every JSON value that is not of the exact structure
and arity of the query shape in context. -/
theorem c8_cursor_roundtrip :
    (∀ r : UTXORow,
      decodeUTXOEvaluatedKey (createUTXOEvaluatedKey r) =
        some (utxoSortKey r)) ∧
    (∀ (r : AggsUTXORow) (order : AggOrder),
      decodeAggsUTXOEvaluatedKey (createAggsUTXOEvaluatedKey r order) =
        some (aggsSortKey r order)) ∧
    (∀ j : Json, (decodeUTXOEvaluatedKey j).isSome = true ↔
      ∃ a b c : Int, j = .arr [.num a, .num b, .num c]) ∧
    (∀ j : Json, (decodeAggsUTXOEvaluatedKey j).isSome = true ↔
      ∃ a b : String, j = .arr [.str a, .str b]) := by
  refine ⟨fun r => rfl, fun r order => by cases order <;> rfl, ?_, ?_⟩
  · intro j
    constructor
    · intro h
      unfold decodeUTXOEvaluatedKey at h
      split at h
      · rename_i a b c
        exact ⟨a, b, c, rfl⟩
      · simp at h
    · rintro ⟨a, b, c, rfl⟩
      rfl
  · intro j
    constructor
    · intro h
      unfold decodeAggsUTXOEvaluatedKey at h
      split at h
      · rename_i a b
        exact ⟨a, b, rfl⟩
      · simp at h
    · rintro ⟨a, b, rfl⟩
      rfl

/-! ## Claim C9 -/

/-- C9: in the `/block/:hashOrNumber` handler, an identifier that is neither
a well-formed H256 hash nor a numeric string produces the immediate `null`
response: no block lookup is attempted and no error is raised (the outcome
type of the handler has no error case before the lookup — the `H256`
constructor throw is caught). -/
theorem c9_block_identifier_null (s : String)
    (h1 : isH256 s = false) (h2 : isNumericString s = false) :
    blockByIdentifier s = .jsonNull := by
  simp [blockByIdentifier, h1, h2]

/-- C9, witness: the theorem applied to the concrete malformed identifier
`"not-a-block"`. -/
theorem c9_block_identifier_witness :
    blockByIdentifier "not-a-block" = .jsonNull :=
  c9_block_identifier_null "not-a-block" (by decide) (by decide)

/-! ## Claim C10 -/

/-- C10, counterexample: the supplied value `itemsPerPage=-3` is neither
absent, unparsable, nor zero, so it is honored as-is: the effective page
size is `-3` (less than 1) and the engine is called with limit `-2`. -/
theorem c10_items_per_page_counterexample :
    effectiveItemsPerPage (some "-3") = -3 ∧
    ¬(1 ≤ effectiveItemsPerPage (some "-3")) ∧
    routeUTXO demoJsonParse c10Query = .engineCall c10EngineArgs :=
  ⟨rfl, by decide, rfl⟩

/-- C10, amended: an absent, empty, unparsable, or zero `itemsPerPage` is
replaced by the default page size 15, and the effective page size is at
least 1 whenever the supplied value parses to a NONNEGATIVE integer; a
negative parse (e.g. `-3`) is honored as-is and yields a sub-1 limit. -/
theorem c10_items_per_page_amended :
    effectiveItemsPerPage none = 15 ∧
    effectiveItemsPerPage (some "") = 15 ∧
    (∀ s : String, jsParseInt s = none →
      effectiveItemsPerPage (some s) = 15) ∧
    (∀ s : String, jsParseInt s = some 0 →
      effectiveItemsPerPage (some s) = 15) ∧
    (∀ (s : String) (n : Int), jsParseInt s = some n → 0 ≤ n →
      1 ≤ effectiveItemsPerPage (some s)) := by
  refine ⟨rfl, rfl, ?_, ?_, ?_⟩
  · intro s h
    cases hse : s.isEmpty
    · simp [effectiveItemsPerPage, hse, h]
    · simp [effectiveItemsPerPage, hse]
  · intro s h
    cases hse : s.isEmpty
    · simp [effectiveItemsPerPage, hse, h]
    · simp [effectiveItemsPerPage, hse]
  · intro s n h hn
    cases hse : s.isEmpty
    · simp only [effectiveItemsPerPage, hse, Bool.false_eq_true, if_false, h]
      by_cases h0 : n = 0
      · simp [h0]
      · simp only [h0, if_false]
        omega
    · simp [effectiveItemsPerPage, hse]

/-- C10, witness: the amended theorem applied to the concrete values
`itemsPerPage=abc` (unparsable, defaulted to 15) and `itemsPerPage=7`
(nonnegative, honored and at least 1). -/
theorem c10_items_per_page_witness :
    effectiveItemsPerPage (some "abc") = 15 ∧
    1 ≤ effectiveItemsPerPage (some "7") :=
  ⟨c10_items_per_page_amended.2.2.1 "abc" rfl,
   c10_items_per_page_amended.2.2.2.2 "7" 7 rfl (by decide)⟩

end CodechainIndexer
